import Mathlib

/-!
Shallow embedding of the agent-orchestration core of `mcp-supervisor`
(`src/tools/monitor.js`, class `AgentMonitor`), together with theorems
settling the frozen claims about it.

Modelling conventions:
* The `state` field of a session is a plain string in the source
  (`session.state = message.status` can assign an arbitrary string), so
  lifecycle states are modelled as `String` constants.
* `this.activeAgents` is a JavaScript `Map`; it is modelled as an
  association list in insertion order with `Map.get`/`Map.set`/
  `Map.delete` semantics (`mapGet`, `mapSet`, `mapDelete`).
* `uuidv4()` and `Date.now()` are environmental inputs; they are passed
  to the embedded operations as explicit arguments (`sessionId`, `now`).
* `child_process.fork` / `dockerRunner.runAgent` may succeed or throw;
  this nondeterminism is an explicit `startOk : Bool` argument.  OS
  signals sent by `stopAgent` and `pidusage` samples are external
  effects; the sample read at a reaper tick is an explicit
  `stats : String → Option (Int × Int)` argument (`none` models the
  `pidusage` call throwing because the process already exited).
* Logger calls are pure side-effecting sinks and are not modelled.
* JavaScript truthiness tests on strings (`if (message.status)`) treat
  the empty string as false; this is modelled explicitly.
-/

namespace McpSupervisor

/-- Lifecycle state constant `AGENT_STATE.PENDING` from `monitor.js`. -/
def AGENT_STATE.PENDING : String := "pending"

/-- Lifecycle state constant `AGENT_STATE.STARTING` from `monitor.js`. -/
def AGENT_STATE.STARTING : String := "starting"

/-- Lifecycle state constant `AGENT_STATE.RUNNING` from `monitor.js`. -/
def AGENT_STATE.RUNNING : String := "running"

/-- Lifecycle state constant `AGENT_STATE.COMPLETING` from `monitor.js`. -/
def AGENT_STATE.COMPLETING : String := "completing"

/-- Lifecycle state constant `AGENT_STATE.COMPLETED` from `monitor.js`. -/
def AGENT_STATE.COMPLETED : String := "completed"

/-- Lifecycle state constant `AGENT_STATE.FAILED` from `monitor.js`. -/
def AGENT_STATE.FAILED : String := "failed"

/-- Lifecycle state constant `AGENT_STATE.TIMEOUT` from `monitor.js`. -/
def AGENT_STATE.TIMEOUT : String := "timeout"

/-- Lifecycle state constant `AGENT_STATE.STOPPED` from `monitor.js`. -/
def AGENT_STATE.STOPPED : String := "stopped"

/-- All values of the `AGENT_STATE` enumeration (the defined state machine). -/
def definedStates : List String :=
  [AGENT_STATE.PENDING, AGENT_STATE.STARTING, AGENT_STATE.RUNNING,
   AGENT_STATE.COMPLETING, AGENT_STATE.COMPLETED, AGENT_STATE.FAILED,
   AGENT_STATE.TIMEOUT, AGENT_STATE.STOPPED]

/-- States treated as terminal by the cleanup pass of `monitorAgents`
(`[COMPLETED, FAILED, STOPPED, TIMEOUT].includes(session.state)`). -/
def terminalStates : List String :=
  [AGENT_STATE.COMPLETED, AGENT_STATE.FAILED, AGENT_STATE.STOPPED,
   AGENT_STATE.TIMEOUT]

/-- Agent catalog entry (an entry of `manifest` consumed by the monitor):
`id`, `path` (executable path) and the `requiresAutonomy` flag. -/
structure AgentConfig where
  id : String
  path : String
  requiresAutonomy : Bool
  deriving Repr, DecidableEq

/-- Execution parameters.  Only the three path-valued fields inspected by
`validateAgentExecution` are modelled; the rest of the payload is opaque.
A JavaScript field that is absent or the falsy empty string is `none`. -/
structure Params where
  path : Option String
  inputPath : Option String
  outputPath : Option String
  deriving Repr, DecidableEq

/-- The `monitoring` sub-record of a session (`cpu`, `memory`, `runtime`,
plus the `progress` field added dynamically by `handleAgentMessage`). -/
structure Monitoring where
  cpu : Int
  memory : Int
  runtime : Int
  progress : Option Int
  deriving Repr, DecidableEq

/-- A session record as built by `spawnAgent`.  `hasProcess` models
`session.process !== null` (the forked child handle); `result` and
`error` are opaque payloads modelled as strings.  `endTime` is absent
until a terminal assignment records it. -/
structure Session where
  sessionId : String
  agentId : String
  agentType : String
  agentConfig : AgentConfig
  params : Params
  state : String
  startTime : Int
  retryCount : Nat
  hasProcess : Bool
  containerId : Option String
  monitoring : Monitoring
  result : Option String
  error : Option String
  endTime : Option Int
  deriving Repr, DecidableEq

/-- The parts of `manifest.json` consumed by the monitor:
`resourceLimits.maxConcurrentAgents`, `blockedPaths`, `allowedDirectories`. -/
structure Manifest where
  maxConcurrentAgents : Nat
  blockedPaths : List String
  allowedDirectories : List String
  deriving Repr, DecidableEq

/-- The `AgentMonitor` state: the manifest, the `activeAgents` map
(association list in insertion order) and the environment-derived
configuration fields read in the constructor.  `home` is
`process.env.HOME` and `cwd` the working directory used by
`path.resolve`. -/
structure Monitor where
  manifest : Manifest
  activeAgents : List (String × Session)
  maxRuntime : Int
  maxRetries : Nat
  allowAutonomy : Bool
  dockerEnabled : Bool
  home : String
  cwd : String
  deriving Repr, DecidableEq

/-- JavaScript `Map.prototype.get` on the association-list model. -/
def mapGet (l : List (String × Session)) (k : String) : Option Session :=
  (l.find? (fun p => p.1 == k)).map (fun p => p.2)

/-- JavaScript `Map.prototype.set`: update in place when the key exists
(insertion order preserved), otherwise append. -/
def mapSet (l : List (String × Session)) (k : String) (v : Session) :
    List (String × Session) :=
  if l.any (fun p => p.1 == k) then
    l.map (fun p => if p.1 == k then (k, v) else p)
  else
    l ++ [(k, v)]

/-- JavaScript `Map.prototype.delete` (result map only). -/
def mapDelete (l : List (String × Session)) (k : String) :
    List (String × Session) :=
  l.filter (fun p => p.1 != k)

/-- Replacement of the first occurrence of a pattern in a character
list; past the replacement the rest of the list is kept unchanged. -/
def replaceFirstList (rep pat : List Char) : List Char → List Char
  | [] => []
  | c :: rest =>
    if pat.isPrefixOf (c :: rest) then rep ++ (c :: rest).drop pat.length
    else c :: replaceFirstList rep pat rest

/-- JavaScript `String.prototype.replace` with a string pattern replaces
only the first occurrence; used for `blocked.replace('~', HOME)`. -/
def replaceFirst (s pat rep : String) : String :=
  String.mk (replaceFirstList rep.data pat.data s.data)

/-- Substring occurrence test on character lists: the needle is a prefix
of some suffix. -/
def hasInfixList (sub : List Char) : List Char → Bool
  | [] => sub.isEmpty
  | c :: rest => sub.isPrefixOf (c :: rest) || hasInfixList sub rest

/-- JavaScript `String.prototype.includes`: substring (infix) test. -/
def strIncludes (s sub : String) : Bool :=
  hasInfixList sub.data s.data

/-- JavaScript `String.prototype.startsWith`. -/
def strStartsWith (s pre : String) : Bool :=
  pre.data.isPrefixOf s.data

/-- Node `path.resolve` relative to a fixed working directory, for
already-normalized inputs: an absolute path resolves to itself, a
relative one is joined onto the working directory. -/
def pathResolve (cwd p : String) : String :=
  if strStartsWith p "/" then p else cwd ++ "/" ++ p

/-- Embedding of `AgentMonitor.isPathAllowed`: resolve the target, return
`false` if the resolved path CONTAINS any `blockedPaths` entry (after
substituting the home directory for the first `~`) — the source uses
`resolved.includes(blocked…)` — otherwise require that the resolved path
start with some resolved `allowedDirectories` entry. -/
def isPathAllowed (m : Monitor) (targetPath : String) : Bool :=
  let resolved := pathResolve m.cwd targetPath
  if m.manifest.blockedPaths.any
      (fun blocked => strIncludes resolved (replaceFirst blocked "~" m.home)) then
    false
  else
    m.manifest.allowedDirectories.any
      (fun allowed => strStartsWith resolved (pathResolve m.cwd allowed))

/-- Result record of `validateAgentExecution` (`{valid, reason}`). -/
structure Validation where
  valid : Bool
  reason : String
  deriving Repr, DecidableEq

/-- The path-valued parameters present in a request, in source order
(`[params.path, params.inputPath, params.outputPath].filter(Boolean)`). -/
def paramPaths (params : Params) : List String :=
  [params.path, params.inputPath, params.outputPath].filterMap id

/-- Embedding of `AgentMonitor.validateAgentExecution`: autonomy flag
check, then the concurrency ceiling against `activeAgents.size`, then the
path checks.  The source guards the path loop with
`if (params.path || params.inputPath || params.outputPath)`, which is
equivalent to the filtered list being nonempty; the first disallowed
path (if any) produces the rejection. -/
def validateAgentExecution (m : Monitor) (agentConfig : AgentConfig)
    (params : Params) : Validation :=
  if agentConfig.requiresAutonomy && !m.allowAutonomy then
    { valid := false,
      reason := "Agent requires ALLOW_AUTONOMY=true but it is disabled" }
  else if m.activeAgents.length ≥ m.manifest.maxConcurrentAgents then
    { valid := false,
      reason := "Maximum concurrent agents limit (" ++
        toString m.manifest.maxConcurrentAgents ++ ") reached" }
  else
    match (paramPaths params).find? (fun p => !(isPathAllowed m p)) with
    | some p =>
      { valid := false,
        reason := "Path " ++ p ++ " is not in allowed directories" }
    | none => { valid := true, reason := "" }

/-- The session record built by `spawnAgent` before the backend is
started: note `state` is initialized directly to `STARTING` (the
`PENDING` constant is never assigned anywhere in the source).  The
`agentId` is the config id joined with the first 8 characters of the
fresh session id. -/
def initialSession (agentConfig : AgentConfig) (params : Params)
    (sessionId : String) (now : Int) (retryCount : Nat) : Session :=
  { sessionId := sessionId
    agentId := agentConfig.id ++ "-" ++ sessionId.take 8
    agentType := agentConfig.id
    agentConfig := agentConfig
    params := params
    state := AGENT_STATE.STARTING
    startTime := now
    retryCount := retryCount
    hasProcess := false
    containerId := none
    monitoring := { cpu := 0, memory := 0, runtime := 0, progress := none }
    result := none
    error := none
    endTime := none }

/-- Embedding of `AgentMonitor.spawnForkAgent` acting on the session it
mutates: on a successful `fork` the process handle is recorded and the
state set to `RUNNING`; if `fork` throws, the state is set to `FAILED`
and the error recorded (the exception then propagates out of
`spawnAgent`). -/
def spawnForkAgent (session : Session) (startOk : Bool) : Session :=
  if startOk then
    { session with hasProcess := true, state := AGENT_STATE.RUNNING }
  else
    { session with state := AGENT_STATE.FAILED, error := some "fork failed" }

/-- Embedding of `AgentMonitor.spawnDockerAgent`: on success the
container id returned by the external Docker runtime (modelled as a
function of the session id) is recorded and the state set to `RUNNING`;
on failure the state is set to `FAILED`. -/
def spawnDockerAgent (session : Session) (startOk : Bool) : Session :=
  if startOk then
    { session with
      containerId := some ("container-" ++ session.sessionId),
      state := AGENT_STATE.RUNNING }
  else
    { session with
      state := AGENT_STATE.FAILED,
      error := some "docker start failed" }

/-- Embedding of `AgentMonitor.spawnAgent`.  Validation runs first; on
rejection the monitor is returned unchanged and the error carries the
rejection reason (`throw new Error(validation.reason)`).  Otherwise the
session is created (in `STARTING`), inserted into `activeAgents`, and
the selected backend is started; the in-place mutation of the session by
the backend spawn is modelled by a second `mapSet`.  When the backend
start fails the exception propagates (error result) but the `FAILED`
session stays in the registry, exactly as in the source. -/
def spawnAgent (m : Monitor) (sessionId : String) (now : Int)
    (agentConfig : AgentConfig) (params : Params) (retryCount : Nat)
    (startOk : Bool) : Monitor × Except String Session :=
  let validation := validateAgentExecution m agentConfig params
  if !validation.valid then
    (m, Except.error validation.reason)
  else
    let session := initialSession agentConfig params sessionId now retryCount
    let m1 : Monitor :=
      { m with activeAgents := mapSet m.activeAgents sessionId session }
    let started :=
      if m.dockerEnabled then spawnDockerAgent session startOk
      else spawnForkAgent session startOk
    let m2 : Monitor :=
      { m1 with activeAgents := mapSet m1.activeAgents sessionId started }
    if startOk then (m2, Except.ok started)
    else (m2, Except.error "backend start failed")

/-- An inbound worker IPC message (`{status?, progress?, result?, error?}`). -/
structure AgentMessage where
  status : Option String
  progress : Option Int
  result : Option String
  error : Option String
  deriving Repr, DecidableEq

/-- The `if (message.status) session.state = message.status` step of
`handleAgentMessage`; the empty string is falsy and skipped. -/
def applyStatus (session : Session) (message : AgentMessage) : Session :=
  match message.status with
  | some st => if st == "" then session else { session with state := st }
  | none => session

/-- The `if (message.progress !== undefined)` step of
`handleAgentMessage` (any present value counts, including 0). -/
def applyProgress (session : Session) (message : AgentMessage) : Session :=
  match message.progress with
  | some p =>
    { session with monitoring := { session.monitoring with progress := some p } }
  | none => session

/-- The `if (message.result) session.result = message.result` step of
`handleAgentMessage`; the empty string is falsy and skipped. -/
def applyResult (session : Session) (message : AgentMessage) : Session :=
  match message.result with
  | some r => if r == "" then session else { session with result := some r }
  | none => session

/-- The `if (message.error) session.error = message.error` step of
`handleAgentMessage`; the empty string is falsy and skipped. -/
def applyError (session : Session) (message : AgentMessage) : Session :=
  match message.error with
  | some e => if e == "" then session else { session with error := some e }
  | none => session

/-- The final `if (message.status === 'complete') state = COMPLETING`
step of `handleAgentMessage`. -/
def finishComplete (session : Session) (message : AgentMessage) : Session :=
  if message.status == some "complete" then
    { session with state := AGENT_STATE.COMPLETING }
  else session

/-- All session updates performed by `handleAgentMessage`, in source
order. -/
def applyMessage (session : Session) (message : AgentMessage) : Session :=
  finishComplete
    (applyError (applyResult (applyProgress (applyStatus session message)
      message) message) message) message

/-- Embedding of `AgentMonitor.handleAgentMessage`: messages for unknown
sessions are dropped; otherwise the session is updated in place. -/
def handleAgentMessage (m : Monitor) (sessionId : String)
    (message : AgentMessage) : Monitor :=
  match mapGet m.activeAgents sessionId with
  | none => m
  | some session =>
    { m with activeAgents :=
        mapSet m.activeAgents sessionId (applyMessage session message) }

/-- Embedding of `AgentMonitor.handleAgentExit`.  `code` is the process
exit code (`none` models `code === null` after a signal kill, which is
not `=== 0`).  Exit code 0 records `COMPLETED` with end time and runtime
telemetry.  A nonzero exit first sets `FAILED`; if `retryCount <
maxRetries` the session is deleted from the registry and `spawnAgent` is
called again with the same config/params and `retryCount + 1` (a fresh
`retryId` models the new `uuidv4()`; any exception from the retry spawn
is caught and only logged, so the monitor resulting from `spawnAgent` is
kept either way and the early `return` skips the end-time bookkeeping);
otherwise the `FAILED` session gets its end time and runtime recorded. -/
def handleAgentExit (m : Monitor) (sessionId : String) (code : Option Int)
    (now : Int) (retryId : String) (retryStartOk : Bool) : Monitor :=
  match mapGet m.activeAgents sessionId with
  | none => m
  | some session =>
    if code == some 0 then
      let s : Session :=
        { session with
          state := AGENT_STATE.COMPLETED,
          endTime := some now,
          monitoring :=
            { session.monitoring with runtime := now - session.startTime } }
      { m with activeAgents := mapSet m.activeAgents sessionId s }
    else
      if session.retryCount < m.maxRetries then
        let m1 : Monitor :=
          { m with activeAgents := mapDelete m.activeAgents sessionId }
        (spawnAgent m1 retryId now session.agentConfig session.params
          (session.retryCount + 1) retryStartOk).1
      else
        let s : Session :=
          { session with
            state := AGENT_STATE.FAILED,
            endTime := some now,
            monitoring :=
              { session.monitoring with runtime := now - session.startTime } }
        { m with activeAgents := mapSet m.activeAgents sessionId s }

/-- Embedding of `AgentMonitor.stopAgent`: an unknown session returns
`false`; otherwise the kill signal / container stop is issued (an
external effect) and the state is unconditionally set to `STOPPED`,
returning `true`. -/
def stopAgent (m : Monitor) (sessionId : String) : Monitor × Bool :=
  match mapGet m.activeAgents sessionId with
  | none => (m, false)
  | some session =>
    let s : Session := { session with state := AGENT_STATE.STOPPED }
    ({ m with activeAgents := mapSet m.activeAgents sessionId s }, true)

/-- One iteration of the first loop of `AgentMonitor.monitorAgents` for
the session under key `sessionId`: sessions not in `RUNNING` are
skipped; a `RUNNING` session whose wall-clock runtime strictly exceeds
`maxRuntime` is set to `TIMEOUT` and then stopped via `stopAgent`;
otherwise, for process-backed sessions, the `pidusage` sample (if the
call does not throw) updates cpu/memory and the runtime telemetry. -/
def reapOne (stats : String → Option (Int × Int)) (now : Int) (m : Monitor)
    (sessionId : String) : Monitor :=
  match mapGet m.activeAgents sessionId with
  | none => m
  | some session =>
    if session.state != AGENT_STATE.RUNNING then m
    else
      if now - session.startTime > m.maxRuntime then
        let s : Session := { session with state := AGENT_STATE.TIMEOUT }
        let m1 : Monitor :=
          { m with activeAgents := mapSet m.activeAgents sessionId s }
        (stopAgent m1 sessionId).1
      else
        if session.hasProcess then
          match stats sessionId with
          | some (c, mem) =>
            let s : Session :=
              { session with monitoring :=
                  { session.monitoring with
                    cpu := c,
                    memory := mem,
                    runtime := now - session.startTime } }
            { m with activeAgents := mapSet m.activeAgents sessionId s }
          | none => m
        else m

/-- One iteration of the cleanup loop of `AgentMonitor.monitorAgents`:
a session in a terminal state whose recorded `endTime` is more than
5 minutes (300000 ms) old is deleted from the registry; sessions whose
`endTime` was never recorded are kept. -/
def cleanupOne (now : Int) (m : Monitor) (sessionId : String) : Monitor :=
  match mapGet m.activeAgents sessionId with
  | none => m
  | some session =>
    if terminalStates.contains session.state then
      match session.endTime with
      | some e =>
        if now - e > 300000 then
          { m with activeAgents := mapDelete m.activeAgents sessionId }
        else m
      | none => m
    else m

/-- Embedding of `AgentMonitor.monitorAgents` (one reaper tick): the
timeout/telemetry pass over all entries, then the retention-window
cleanup pass. -/
def monitorAgents (stats : String → Option (Int × Int)) (m : Monitor)
    (now : Int) : Monitor :=
  let m1 := (m.activeAgents.map Prod.fst).foldl (reapOne stats now) m
  (m1.activeAgents.map Prod.fst).foldl (cleanupOne now) m1

/-- Specification-side version of the path check, modelled from the
spec's words for comparison with `isPathAllowed`: reject when the
resolved path "matches any blockedRoots entry (PREFIX match, with the
home-directory substitution)" and otherwise require it to start with
some allowed root. -/
def isPathAllowedSpec (m : Monitor) (targetPath : String) : Bool :=
  let resolved := pathResolve m.cwd targetPath
  if m.manifest.blockedPaths.any
      (fun blocked =>
        strStartsWith resolved (replaceFirst blocked "~" m.home)) then
    false
  else
    m.manifest.allowedDirectories.any
      (fun allowed => strStartsWith resolved (pathResolve m.cwd allowed))

/-- The session record produced by the exit-code-0 branch of
`handleAgentExit`: `COMPLETED`, end time and runtime recorded. -/
def completedAt (session : Session) (now : Int) : Session :=
  { session with
    state := AGENT_STATE.COMPLETED,
    endTime := some now,
    monitoring := { session.monitoring with runtime := now - session.startTime } }

/-- The session record produced by the non-retried failure branch of
`handleAgentExit`: `FAILED`, end time and runtime recorded. -/
def failedAt (session : Session) (now : Int) : Session :=
  { session with
    state := AGENT_STATE.FAILED,
    endTime := some now,
    monitoring := { session.monitoring with runtime := now - session.startTime } }

/-- Example worker config used in concrete scenarios (no autonomy). -/
def exCfg : AgentConfig :=
  { id := "file-processor", path := "agents/file-processor", requiresAutonomy := false }

/-- Example worker config that requires autonomy. -/
def exCfgAuto : AgentConfig :=
  { id := "health-checker", path := "agents/health-checker", requiresAutonomy := true }

/-- Example parameters with no path fields. -/
def exParams : Params := { path := none, inputPath := none, outputPath := none }

/-- Fresh monitoring telemetry record. -/
def exMonitoring : Monitoring := { cpu := 0, memory := 0, runtime := 0, progress := none }

/-- Example manifest: ceiling 5, one blocked path, one allowed directory. -/
def exManifest : Manifest :=
  { maxConcurrentAgents := 5, blockedPaths := ["/etc"],
    allowedDirectories := ["/home"] }

/-- Example running session under key "s1". -/
def exSession : Session :=
  { sessionId := "s1", agentId := "file-processor-s1",
    agentType := "file-processor", agentConfig := exCfg, params := exParams,
    state := AGENT_STATE.RUNNING, startTime := 0, retryCount := 0,
    hasProcess := true, containerId := none, monitoring := exMonitoring,
    result := none, error := none, endTime := none }

/-- Example monitor holding the single running session "s1". -/
def exMonitor : Monitor :=
  { manifest := exManifest, activeAgents := [("s1", exSession)],
    maxRuntime := 1000, maxRetries := 2, allowAutonomy := true,
    dockerEnabled := false, home := "/root", cwd := "/work" }

/-- Example monitor with an empty registry. -/
def exMonitorEmpty : Monitor := { exMonitor with activeAgents := [] }

/-- Example monitor with autonomy disabled and an empty registry. -/
def exMonitorNoAuto : Monitor :=
  { exMonitor with activeAgents := [], allowAutonomy := false }

/-- Example terminated (stopped) session under key "t1". -/
def exStoppedSession : Session :=
  { exSession with
    sessionId := "t1",
    state := AGENT_STATE.STOPPED,
    endTime := some 10 }

/-- Example monitor whose registry holds only one terminal session while
the concurrency ceiling is 1. -/
def exMonitorSaturated : Monitor :=
  { exMonitor with
    manifest := { exManifest with maxConcurrentAgents := 1 },
    activeAgents := [("t1", exStoppedSession)] }

/-- Resource-sample environment in which every `pidusage` call throws. -/
def noStats : String → Option (Int × Int) := fun _ => none

/-- Example running session that has exhausted its retries
(retryCount = 2 = maxRetries of `exMonitor`). -/
def exSessionAtLimit : Session := { exSession with retryCount := 2 }

/-- Example monitor holding the retry-exhausted session under "s1". -/
def exMonitorAtLimit : Monitor :=
  { exMonitor with activeAgents := [("s1", exSessionAtLimit)] }

/-- Unfolding of `mapGet` over a cons cell. -/
theorem mapGet_cons (p : String × Session) (t : List (String × Session))
    (k : String) :
    mapGet (p :: t) k = if p.1 == k then some p.2 else mapGet t k := by
  by_cases h : (p.1 == k) = true
  · simp [mapGet, List.find?_cons_of_pos _ h, h]
  · simp [mapGet, List.find?_cons_of_neg _ h, h]

/-- Looking up the updated key in the in-place-update branch of `mapSet`. -/
theorem mapGet_map_update (l : List (String × Session)) (k : String)
    (v : Session) (h : l.any (fun p => p.1 == k) = true) :
    mapGet (l.map (fun p => if p.1 == k then (k, v) else p)) k = some v := by
  induction l with
  | nil => simp at h
  | cons p t ih =>
    rw [List.map_cons]
    by_cases hp : (p.1 == k) = true
    · rw [if_pos hp, mapGet_cons]
      simp
    · rw [if_neg hp, mapGet_cons, if_neg hp]
      rw [Bool.not_eq_true] at hp
      apply ih
      simpa [List.any_cons, hp] using h

/-- Looking up the appended key in the append branch of `mapSet`. -/
theorem mapGet_append_single (l : List (String × Session)) (k : String)
    (v : Session) (h : l.any (fun p => p.1 == k) = false) :
    mapGet (l ++ [(k, v)]) k = some v := by
  induction l with
  | nil => simp [mapGet_cons]
  | cons p t ih =>
    rw [List.cons_append, mapGet_cons]
    simp only [List.any_cons, Bool.or_eq_false_iff] at h
    rw [if_neg (by simp [h.1])]
    exact ih h.2

/-- `Map.set` then `Map.get` of the same key yields the stored value. -/
theorem mapGet_mapSet_self (l : List (String × Session)) (k : String)
    (v : Session) : mapGet (mapSet l k v) k = some v := by
  unfold mapSet
  by_cases hany : l.any (fun p => p.1 == k) = true
  · rw [if_pos hany]
    exact mapGet_map_update l k v hany
  · rw [if_neg hany]
    rw [Bool.not_eq_true] at hany
    exact mapGet_append_single l k v hany

/-- Keys other than the updated one are unaffected by the in-place-update
branch of `mapSet`. -/
theorem mapGet_map_update_ne (l : List (String × Session)) (k k' : String)
    (v : Session) (hne : k' ≠ k) :
    mapGet (l.map (fun p => if p.1 == k then (k, v) else p)) k' =
      mapGet l k' := by
  induction l with
  | nil => rfl
  | cons p t ih =>
    rw [List.map_cons]
    by_cases hp : (p.1 == k) = true
    · rw [if_pos hp, mapGet_cons, mapGet_cons]
      have hp1 : p.1 = k := eq_of_beq hp
      have hk : (k == k') = false := beq_eq_false_iff_ne.mpr (Ne.symm hne)
      rw [hp1, hk, ih]
      simp
    · rw [if_neg hp, mapGet_cons, mapGet_cons, ih]

/-- Keys other than the appended one are unaffected by the append branch
of `mapSet`. -/
theorem mapGet_append_single_ne (l : List (String × Session)) (k k' : String)
    (v : Session) (hne : k' ≠ k) :
    mapGet (l ++ [(k, v)]) k' = mapGet l k' := by
  induction l with
  | nil =>
    have hk : (k == k') = false := beq_eq_false_iff_ne.mpr (Ne.symm hne)
    simp [mapGet, mapGet_cons, hk]
  | cons p t ih =>
    rw [List.cons_append, mapGet_cons, mapGet_cons, ih]

/-- `Map.set` does not change the binding of any other key. -/
theorem mapGet_mapSet_ne (l : List (String × Session)) (k k' : String)
    (v : Session) (hne : k' ≠ k) :
    mapGet (mapSet l k v) k' = mapGet l k' := by
  unfold mapSet
  by_cases hany : l.any (fun p => p.1 == k) = true
  · rw [if_pos hany]
    exact mapGet_map_update_ne l k k' v hne
  · rw [if_neg hany]
    exact mapGet_append_single_ne l k k' v hne

/-- `Map.delete` then `Map.get` of the same key yields nothing. -/
theorem mapGet_mapDelete_self (l : List (String × Session)) (k : String) :
    mapGet (mapDelete l k) k = none := by
  have h : (mapDelete l k).find? (fun p => p.1 == k) = none := by
    rw [List.find?_eq_none]
    intro x hx
    have hb := List.of_mem_filter hx
    simp only [bne_iff_ne] at hb
    simp [hb]
  unfold mapGet
  rw [h]
  rfl

/-- `Map.delete` does not change the binding of any other key. -/
theorem mapGet_mapDelete_ne (l : List (String × Session)) (k k' : String)
    (hne : k' ≠ k) : mapGet (mapDelete l k) k' = mapGet l k' := by
  induction l with
  | nil => rfl
  | cons p t ih =>
    unfold mapDelete at ih ⊢
    rw [List.filter_cons]
    by_cases hp : (p.1 != k) = true
    · rw [if_pos hp, mapGet_cons, mapGet_cons, ih]
    · rw [if_neg hp, mapGet_cons, ih]
      have hp1 : p.1 = k := by
        rw [Bool.not_eq_true] at hp
        simpa [bne] using hp
      have hk : (k == k') = false := beq_eq_false_iff_ne.mpr (Ne.symm hne)
      rw [hp1, hk]
      simp

/-- A key with a binding occurs in the key test used by `mapSet`. -/
theorem any_key_of_mapGet_some (l : List (String × Session)) (k : String)
    (v : Session) (h : mapGet l k = some v) :
    l.any (fun p => p.1 == k) = true := by
  unfold mapGet at h
  cases hf : l.find? (fun p => p.1 == k) with
  | none => rw [hf] at h; simp at h
  | some q =>
    have hq0 := List.find?_some hf
    have hq : (q.1 == k) = true := by simpa using hq0
    exact List.any_eq_true.mpr ⟨q, List.mem_of_find?_eq_some hf, hq⟩

/-- A key with a binding is among the map's keys. -/
theorem memKeys_of_mapGet_some (l : List (String × Session)) (k : String)
    (v : Session) (h : mapGet l k = some v) : k ∈ l.map Prod.fst := by
  unfold mapGet at h
  cases hf : l.find? (fun p => p.1 == k) with
  | none => rw [hf] at h; simp at h
  | some q =>
    have hq0 := List.find?_some hf
    have hqb : (q.1 == k) = true := by simpa using hq0
    have hq : q.1 = k := eq_of_beq hqb
    exact hq ▸ List.mem_map.mpr ⟨q, List.mem_of_find?_eq_some hf, rfl⟩

/-- The in-place-update branch of `mapSet` preserves the key list. -/
theorem keys_map_update (l : List (String × Session)) (k : String)
    (v : Session) :
    (l.map (fun p => if p.1 == k then (k, v) else p)).map Prod.fst =
      l.map Prod.fst := by
  rw [List.map_map]
  apply List.map_congr_left
  intro p _
  by_cases h : (p.1 == k) = true
  · simp [Function.comp, h, (eq_of_beq h).symm]
  · simp [Function.comp, h]

/-- Setting an existing key preserves the key list. -/
theorem keys_mapSet_of_any (l : List (String × Session)) (k : String)
    (v : Session) (h : l.any (fun p => p.1 == k) = true) :
    (mapSet l k v).map Prod.fst = l.map Prod.fst := by
  unfold mapSet
  rw [if_pos h]
  exact keys_map_update l k v

/-- The progress update of `handleAgentMessage` never touches the state. -/
theorem applyProgress_state (s : Session) (msg : AgentMessage) :
    (applyProgress s msg).state = s.state := by
  unfold applyProgress
  cases msg.progress <;> rfl

/-- The result update of `handleAgentMessage` never touches the state. -/
theorem applyResult_state (s : Session) (msg : AgentMessage) :
    (applyResult s msg).state = s.state := by
  unfold applyResult
  repeat' split
  all_goals rfl

/-- The error update of `handleAgentMessage` never touches the state. -/
theorem applyError_state (s : Session) (msg : AgentMessage) :
    (applyError s msg).state = s.state := by
  unfold applyError
  repeat' split
  all_goals rfl

/-- The state a session ends up in after `handleAgentMessage` processes a
message carrying a (truthy) status field. -/
theorem applyMessage_state (s : Session) (msg : AgentMessage) (st : String)
    (hst : msg.status = some st) (hne : st ≠ "") :
    (applyMessage s msg).state =
      if st = "complete" then AGENT_STATE.COMPLETING else st := by
  unfold applyMessage finishComplete
  have hs : (applyStatus s msg).state = st := by
    unfold applyStatus
    rw [hst]
    simp [hne]
  by_cases hc : st = "complete"
  · subst hc
    rw [hst, if_pos (by simp), if_pos rfl]
  · have hb : (msg.status == some "complete") = false := by
      rw [hst]
      exact beq_eq_false_iff_ne.mpr (by simp [hc])
    rw [hb, if_neg hc]
    simp only [Bool.false_eq_true, if_false]
    rw [applyError_state, applyResult_state, applyProgress_state, hs]

/-- C1, amended behavior at the registry level: any truthy status value
in a worker message is written verbatim into the session's state (with
the value "complete" then overridden to COMPLETING). -/
theorem handleAgentMessage_state (m : Monitor) (sid : String)
    (msg : AgentMessage) (session : Session) (st : String)
    (hget : mapGet m.activeAgents sid = some session)
    (hst : msg.status = some st) (hne : st ≠ "") :
    (mapGet (handleAgentMessage m sid msg).activeAgents sid).map Session.state =
      some (if st = "complete" then AGENT_STATE.COMPLETING else st) := by
  unfold handleAgentMessage
  rw [hget]
  rw [mapGet_mapSet_self]
  simp [applyMessage_state session msg st hst hne]

/-- C1 witness: the amended statement instantiated on the example
monitor with a "progress" status and with the "complete" status. -/
theorem handleAgentMessage_state_witness :
    mapGet exMonitor.activeAgents "s1" = some exSession ∧
    (mapGet (handleAgentMessage exMonitor "s1"
        { status := some "progress", progress := none, result := none,
          error := none }).activeAgents "s1").map Session.state =
      some "progress" ∧
    (mapGet (handleAgentMessage exMonitor "s1"
        { status := some "complete", progress := none, result := none,
          error := none }).activeAgents "s1").map Session.state =
      some AGENT_STATE.COMPLETING := by
  refine ⟨rfl, ?_, ?_⟩
  · have h := handleAgentMessage_state exMonitor "s1"
      { status := some "progress", progress := none, result := none,
        error := none } exSession "progress" rfl rfl (by decide)
    simpa using h
  · have h := handleAgentMessage_state exMonitor "s1"
      { status := some "complete", progress := none, result := none,
        error := none } exSession "complete" rfl rfl (by decide)
    simpa using h

/-- C1 counterexample: a worker message whose status is "paused" (not
the "complete" signal) does change the session's lifecycle state — the
state is overwritten with the raw status value, which is not among the
defined state-machine values and differs from the previous state
RUNNING. -/
theorem status_message_corrupts_state :
    (mapGet (handleAgentMessage exMonitor "s1"
        { status := some "paused", progress := none, result := none,
          error := none }).activeAgents "s1").map Session.state =
      some "paused" ∧
    definedStates.contains "paused" = false ∧
    ("paused" : String) ≠ AGENT_STATE.RUNNING := by
  refine ⟨rfl, by decide, by decide⟩

/-- C3: when admission rejects, `spawnAgent` fails with exactly the
rejection reason and the monitor is returned unchanged — no session is
inserted and no backend is started. -/
theorem spawn_rejected_no_side_effects (m : Monitor) (sid : String)
    (now : Int) (cfg : AgentConfig) (params : Params) (rc : Nat)
    (startOk : Bool)
    (hval : (validateAgentExecution m cfg params).valid = false) :
    spawnAgent m sid now cfg params rc startOk =
      (m, Except.error (validateAgentExecution m cfg params).reason) := by
  unfold spawnAgent
  simp [hval]

/-- C3 witness: a worker requiring autonomy is rejected while the flag is
off (an empty registry stays empty), and a saturated registry rejects
with the ceiling reason. -/
theorem spawn_rejected_no_side_effects_witness :
    (validateAgentExecution exMonitorNoAuto exCfgAuto exParams).valid = false ∧
    spawnAgent exMonitorNoAuto "s9" 0 exCfgAuto exParams 0 true =
      (exMonitorNoAuto, Except.error
        (validateAgentExecution exMonitorNoAuto exCfgAuto exParams).reason) ∧
    (validateAgentExecution exMonitorSaturated exCfg exParams).valid = false ∧
    spawnAgent exMonitorSaturated "s9" 0 exCfg exParams 0 true =
      (exMonitorSaturated, Except.error
        (validateAgentExecution exMonitorSaturated exCfg exParams).reason) := by
  refine ⟨by decide, ?_, by decide, ?_⟩
  · exact spawn_rejected_no_side_effects exMonitorNoAuto "s9" 0 exCfgAuto
      exParams 0 true (by decide)
  · exact spawn_rejected_no_side_effects exMonitorSaturated "s9" 0 exCfg
      exParams 0 true (by decide)

/-- C7, amended: `stopAgent` returns false exactly when the session is
not in the registry, and on a session that is present a second stop call
still finds it, returns true again, and leaves the state at STOPPED (a
state-level no-op). -/
theorem stopAgent_false_iff_unknown (m : Monitor) (sid : String) :
    ((stopAgent m sid).2 = false ↔ mapGet m.activeAgents sid = none) ∧
    (∀ session, mapGet m.activeAgents sid = some session →
      (stopAgent (stopAgent m sid).1 sid).2 = true ∧
      (mapGet (stopAgent (stopAgent m sid).1 sid).1.activeAgents sid).map
          Session.state = some AGENT_STATE.STOPPED) := by
  constructor
  · cases hm : mapGet m.activeAgents sid with
    | none => simp [stopAgent, hm]
    | some session => simp [stopAgent, hm]
  · intro session hm
    have step : ∀ (mm : Monitor) (s' : Session),
        mapGet mm.activeAgents sid = some s' →
        (stopAgent mm sid).2 = true ∧
        (mapGet (stopAgent mm sid).1.activeAgents sid).map Session.state =
          some AGENT_STATE.STOPPED := by
      intro mm s' h
      unfold stopAgent
      rw [h]
      simp [mapGet_mapSet_self]
    have h1 : mapGet ((stopAgent m sid).1).activeAgents sid =
        some { session with state := AGENT_STATE.STOPPED } := by
      unfold stopAgent
      rw [hm]
      simp [mapGet_mapSet_self]
    exact step _ _ h1

/-- C7 witness: on the example monitor, a stop of the unknown session
"zz" returns false, and a double stop of "s1" returns true the second
time with the state left at STOPPED. -/
theorem stopAgent_false_iff_unknown_witness :
    ((stopAgent exMonitor "zz").2 = false ↔
      mapGet exMonitor.activeAgents "zz" = none) ∧
    ((stopAgent (stopAgent exMonitor "s1").1 "s1").2 = true ∧
      (mapGet (stopAgent (stopAgent exMonitor "s1").1 "s1").1.activeAgents
          "s1").map Session.state = some AGENT_STATE.STOPPED) :=
  ⟨(stopAgent_false_iff_unknown exMonitor "zz").1,
   (stopAgent_false_iff_unknown exMonitor "s1").2 exSession rfl⟩

/-- C7 counterexample: the claim says the second stop of an
already-stopped session returns false; in the code the session is still
in the registry, so the second call returns true. -/
theorem second_stop_returns_true :
    (stopAgent exMonitor "s1").2 = true ∧
    (mapGet (stopAgent exMonitor "s1").1.activeAgents "s1").map
        Session.state = some AGENT_STATE.STOPPED ∧
    (stopAgent (stopAgent exMonitor "s1").1 "s1").2 = true := by
  refine ⟨rfl, rfl, rfl⟩

/-- C8: a backend exit with code 0 marks the session COMPLETED with end
time and runtime recorded, and performs no retry — the registry is the
old registry with only this session's entry replaced, whatever the
retryCount. -/
theorem zero_exit_completes (m : Monitor) (sid : String) (session : Session)
    (now : Int) (retryId : String) (retryStartOk : Bool)
    (hget : mapGet m.activeAgents sid = some session) :
    handleAgentExit m sid (some 0) now retryId retryStartOk =
      { m with
        activeAgents := mapSet m.activeAgents sid (completedAt session now) } := by
  unfold handleAgentExit
  rw [hget]
  rfl

/-- C8 witness: exit code 0 on the example session (and on the same
session with retryCount 0, i.e. retries would have been available). -/
theorem zero_exit_completes_witness :
    mapGet exMonitor.activeAgents "s1" = some exSession ∧
    handleAgentExit exMonitor "s1" (some 0) 500 "s9" true =
      { exMonitor with
        activeAgents := mapSet exMonitor.activeAgents "s1"
          (completedAt exSession 500) } :=
  ⟨rfl, zero_exit_completes exMonitor "s1" exSession 500 "s9" true rfl⟩

/-- C9: a nonzero (or signal-null) exit with retryCount equal to the
retry limit marks the session FAILED, records end time and runtime, and
creates no further session — the registry is the old registry with only
this session's entry replaced. -/
theorem failed_exit_at_retry_limit (m : Monitor) (sid : String)
    (session : Session) (code : Option Int) (now : Int) (retryId : String)
    (retryStartOk : Bool)
    (hget : mapGet m.activeAgents sid = some session)
    (hcode : code ≠ some 0)
    (hrc : session.retryCount = m.maxRetries) :
    handleAgentExit m sid code now retryId retryStartOk =
      { m with
        activeAgents := mapSet m.activeAgents sid (failedAt session now) } := by
  have hbeq : (code == some 0) = false := beq_eq_false_iff_ne.mpr hcode
  have hlt : ¬ session.retryCount < m.maxRetries := by
    rw [hrc]
    exact lt_irrefl _
  unfold handleAgentExit
  rw [hget]
  simp only [hbeq, Bool.false_eq_true, if_false, hlt, if_neg hlt]
  rfl

/-- C9 witness: a session at the retry limit whose process exits with
code 1 ends FAILED with its end time recorded. -/
theorem failed_exit_at_retry_limit_witness :
    mapGet exMonitorAtLimit.activeAgents "s1" = some exSessionAtLimit ∧
    (some 1 : Option Int) ≠ some 0 ∧
    exSessionAtLimit.retryCount = exMonitorAtLimit.maxRetries ∧
    handleAgentExit exMonitorAtLimit "s1" (some 1) 500 "s9" true =
      { exMonitorAtLimit with
        activeAgents := mapSet exMonitorAtLimit.activeAgents "s1"
          (failedAt exSessionAtLimit 500) } :=
  ⟨rfl, by decide, rfl,
   failed_exit_at_retry_limit exMonitorAtLimit "s1" exSessionAtLimit
     (some 1) 500 "s9" true rfl (by decide) rfl⟩

/-- C4: a nonzero (or signal-null) exit below the retry limit removes
the old session from the registry and creates a new one through
`spawnAgent` under the fresh id, with retryCount incremented and the
identical worker config and params; the old id is gone from the
registry, so it is never reused. -/
theorem nonzero_exit_retries_fresh_session (m : Monitor) (sid : String)
    (session : Session) (code : Option Int) (now : Int) (retryId : String)
    (retryStartOk : Bool)
    (hget : mapGet m.activeAgents sid = some session)
    (hcode : code ≠ some 0)
    (hrc : session.retryCount < m.maxRetries)
    (hfresh : retryId ≠ sid)
    (hdocker : m.dockerEnabled = false)
    (hval : (validateAgentExecution
        { m with activeAgents := mapDelete m.activeAgents sid }
        session.agentConfig session.params).valid = true) :
    mapGet (handleAgentExit m sid code now retryId
        retryStartOk).activeAgents sid = none ∧
    (mapGet (handleAgentExit m sid code now retryId
        retryStartOk).activeAgents retryId).map
        (fun s => (s.sessionId, s.retryCount, s.agentConfig, s.params)) =
      some (retryId, session.retryCount + 1, session.agentConfig,
        session.params) := by
  have hbeq : (code == some 0) = false := beq_eq_false_iff_ne.mpr hcode
  have hactive : (handleAgentExit m sid code now retryId
      retryStartOk).activeAgents =
      mapSet (mapSet (mapDelete m.activeAgents sid) retryId
        (initialSession session.agentConfig session.params retryId now
          (session.retryCount + 1)))
        retryId
        (spawnForkAgent (initialSession session.agentConfig session.params
          retryId now (session.retryCount + 1)) retryStartOk) := by
    unfold handleAgentExit
    rw [hget]
    simp only [hbeq, Bool.false_eq_true, if_false, if_pos hrc]
    unfold spawnAgent
    simp only [hval, Bool.not_true, Bool.false_eq_true, if_false]
    simp only [hdocker, Bool.false_eq_true, if_false]
    cases retryStartOk <;> rfl
  rw [hactive]
  constructor
  · rw [mapGet_mapSet_ne _ _ _ _ (Ne.symm hfresh),
      mapGet_mapSet_ne _ _ _ _ (Ne.symm hfresh), mapGet_mapDelete_self]
  · rw [mapGet_mapSet_self]
    cases retryStartOk <;> rfl

/-- C4 witness: the example running session (retryCount 0, limit 2)
exits with code 1; the registry afterwards has no "s1" and a fresh "s2"
with retryCount 1 and the same config and params. -/
theorem nonzero_exit_retries_fresh_session_witness :
    mapGet exMonitor.activeAgents "s1" = some exSession ∧
    mapGet (handleAgentExit exMonitor "s1" (some 1) 500 "s2"
        true).activeAgents "s1" = none ∧
    (mapGet (handleAgentExit exMonitor "s1" (some 1) 500 "s2"
        true).activeAgents "s2").map
        (fun s => (s.sessionId, s.retryCount, s.agentConfig, s.params)) =
      some ("s2", exSession.retryCount + 1, exSession.agentConfig,
        exSession.params) := by
  refine ⟨rfl, ?_⟩
  exact nonzero_exit_retries_fresh_session exMonitor "s1" exSession (some 1)
    500 "s2" true rfl (by decide) (by decide) (by decide) rfl (by decide)

/-- C10: the concurrency ceiling in `validateAgentExecution` counts every
registry entry — a registry of only terminal sessions whose count equals
the ceiling still rejects a new admission with the ceiling-reached
reason, although no session is RUNNING. -/
theorem ceiling_counts_terminal_sessions (m : Monitor) (cfg : AgentConfig)
    (params : Params)
    (hauto : (cfg.requiresAutonomy && !m.allowAutonomy) = false)
    (hsize : m.activeAgents.length = m.manifest.maxConcurrentAgents)
    (hterm : ∀ p ∈ m.activeAgents, p.2.state ∈ terminalStates) :
    (validateAgentExecution m cfg params).valid = false ∧
    (validateAgentExecution m cfg params).reason =
      "Maximum concurrent agents limit (" ++
        toString m.manifest.maxConcurrentAgents ++ ") reached" ∧
    ∀ p ∈ m.activeAgents, p.2.state ≠ AGENT_STATE.RUNNING := by
  have hge : m.activeAgents.length ≥ m.manifest.maxConcurrentAgents :=
    le_of_eq hsize.symm
  refine ⟨?_, ?_, ?_⟩
  · simp [validateAgentExecution, hauto, hge]
  · simp [validateAgentExecution, hauto, hge]
  · intro p hp
    have h := hterm p hp
    simp only [terminalStates, List.mem_cons, List.not_mem_nil, or_false] at h
    intro hr
    rw [hr] at h
    revert h
    decide

/-- C5 counterexample: the path "/home/user/etc/passwd" matches no
blocked root by prefix match and is a descendant of the allowed root
"/home" — the specification-side check accepts it — yet admission
rejects it, because the code tests blocked roots with a substring
(`String.prototype.includes`) match that hits the "/etc" in the middle
of the path. -/
theorem blocked_substring_not_prefix :
    isPathAllowedSpec exMonitorEmpty "/home/user/etc/passwd" = true ∧
    isPathAllowed exMonitorEmpty "/home/user/etc/passwd" = false ∧
    (validateAgentExecution exMonitorEmpty exCfg
      { path := some "/home/user/etc/passwd", inputPath := none,
        outputPath := none }).valid = false := by
  refine ⟨by decide, by decide, by decide⟩

/-- C5, amended: admission resolves each present path parameter and
rejects whenever one fails the path check, regardless of the other
checks passing; the blocked-roots test is a substring (infix) match on
the resolved path (with first-occurrence home substitution), not a
prefix match, and the allowed-roots test requires the resolved path to
start with some allowed root. -/
theorem path_rejection_regardless_of_other_params (m : Monitor)
    (cfg : AgentConfig) (params : Params) (p : String)
    (hauto : (cfg.requiresAutonomy && !m.allowAutonomy) = false)
    (hsize : m.activeAgents.length < m.manifest.maxConcurrentAgents)
    (hfind : (paramPaths params).find? (fun q => !(isPathAllowed m q)) =
      some p) :
    (validateAgentExecution m cfg params).valid = false ∧
    (validateAgentExecution m cfg params).reason =
      "Path " ++ p ++ " is not in allowed directories" ∧
    ∀ q, m.manifest.blockedPaths.any
        (fun b => strIncludes (pathResolve m.cwd q)
          (replaceFirst b "~" m.home)) = true →
      isPathAllowed m q = false := by
  have hge : ¬ m.activeAgents.length ≥ m.manifest.maxConcurrentAgents :=
    not_le.mpr hsize
  refine ⟨?_, ?_, ?_⟩
  · simp [validateAgentExecution, hauto, hge, hfind]
  · simp [validateAgentExecution, hauto, hge, hfind]
  · intro q hq
    simp [isPathAllowed, hq]

/-- C5 witness: the amended statement instantiated on the example
monitor, where "/home/user/etc/passwd" is the failing path parameter. -/
theorem path_rejection_regardless_of_other_params_witness :
    (validateAgentExecution exMonitorEmpty exCfg
      { path := some "/home/user/etc/passwd", inputPath := none,
        outputPath := none }).valid = false ∧
    (validateAgentExecution exMonitorEmpty exCfg
      { path := some "/home/user/etc/passwd", inputPath := none,
        outputPath := none }).reason =
      "Path " ++ "/home/user/etc/passwd" ++ " is not in allowed directories" ∧
    ∀ q, exMonitorEmpty.manifest.blockedPaths.any
        (fun b => strIncludes (pathResolve exMonitorEmpty.cwd q)
          (replaceFirst b "~" exMonitorEmpty.home)) = true →
      isPathAllowed exMonitorEmpty q = false :=
  path_rejection_regardless_of_other_params exMonitorEmpty exCfg
    { path := some "/home/user/etc/passwd", inputPath := none,
      outputPath := none } "/home/user/etc/passwd"
    (by decide) (by decide) (by decide)

/-- C6 counterexample: `spawnAgent` never puts a session in PENDING —
the session record is created directly in STARTING (and ends the spawn
in RUNNING). -/
theorem session_created_in_starting :
    (initialSession exCfg exParams "s1" 0 0).state = AGENT_STATE.STARTING ∧
    AGENT_STATE.STARTING ≠ AGENT_STATE.PENDING ∧
    (mapGet (spawnAgent exMonitorEmpty "s1" 0 exCfg exParams 0
        true).1.activeAgents "s1").map Session.state =
      some AGENT_STATE.RUNNING := by
  refine ⟨rfl, by decide, rfl⟩

/-- C6, amended: an admitted spawn creates the session directly in
STARTING (PENDING is declared but never assigned), inserts it into the
registry, and on successful backend start updates it to RUNNING with the
process handle recorded. -/
theorem admitted_spawn_starting_then_running (m : Monitor) (sid : String)
    (now : Int) (cfg : AgentConfig) (params : Params) (rc : Nat)
    (hval : (validateAgentExecution m cfg params).valid = true)
    (hdocker : m.dockerEnabled = false) :
    (initialSession cfg params sid now rc).state = AGENT_STATE.STARTING ∧
    spawnAgent m sid now cfg params rc true =
      ({ m with
         activeAgents := mapSet
           (mapSet m.activeAgents sid (initialSession cfg params sid now rc))
           sid (spawnForkAgent (initialSession cfg params sid now rc) true) },
       Except.ok (spawnForkAgent (initialSession cfg params sid now rc) true)) ∧
    (spawnForkAgent (initialSession cfg params sid now rc) true).state =
      AGENT_STATE.RUNNING ∧
    (spawnForkAgent (initialSession cfg params sid now rc) true).hasProcess =
      true := by
  refine ⟨rfl, ?_, rfl, rfl⟩
  unfold spawnAgent
  simp [hval, hdocker]

/-- C6 witness: the amended statement instantiated on the empty example
monitor. -/
theorem admitted_spawn_starting_then_running_witness :
    (initialSession exCfg exParams "s7" 0 0).state = AGENT_STATE.STARTING ∧
    spawnAgent exMonitorEmpty "s7" 0 exCfg exParams 0 true =
      ({ exMonitorEmpty with
         activeAgents := mapSet
           (mapSet exMonitorEmpty.activeAgents "s7"
             (initialSession exCfg exParams "s7" 0 0))
           "s7" (spawnForkAgent (initialSession exCfg exParams "s7" 0 0) true) },
       Except.ok (spawnForkAgent (initialSession exCfg exParams "s7" 0 0)
         true)) ∧
    (spawnForkAgent (initialSession exCfg exParams "s7" 0 0) true).state =
      AGENT_STATE.RUNNING ∧
    (spawnForkAgent (initialSession exCfg exParams "s7" 0 0)
        true).hasProcess = true :=
  admitted_spawn_starting_then_running exMonitorEmpty "s7" 0 exCfg exParams 0
    (by decide) rfl

/-- Stopping one session does not move any other key's binding. -/
theorem stopAgent_get_ne (m : Monitor) (k sid : String) (hne : k ≠ sid) :
    mapGet ((stopAgent m k).1).activeAgents sid =
      mapGet m.activeAgents sid := by
  unfold stopAgent
  cases hm : mapGet m.activeAgents k with
  | none => rfl
  | some session => exact mapGet_mapSet_ne _ _ _ _ (Ne.symm hne)

/-- A reaper step for one session leaves every configuration field (in
particular `maxRuntime`) unchanged. -/
theorem reapOne_maxRuntime (stats : String → Option (Int × Int)) (now : Int)
    (m : Monitor) (k : String) :
    (reapOne stats now m k).maxRuntime = m.maxRuntime := by
  unfold reapOne
  cases hm : mapGet m.activeAgents k with
  | none => rfl
  | some session =>
    dsimp only
    by_cases hs : (session.state != AGENT_STATE.RUNNING) = true
    · rw [if_pos hs]
    · rw [if_neg hs]
      by_cases ht : now - session.startTime > m.maxRuntime
      · rw [if_pos ht]
        unfold stopAgent
        dsimp only
        rw [mapGet_mapSet_self]
      · rw [if_neg ht]
        by_cases hp : session.hasProcess = true
        · rw [if_pos hp]
          cases hst : stats k with
          | none => rfl
          | some st =>
            cases st
            rfl
        · rw [if_neg hp]

/-- A reaper step for one session does not move any other key's binding. -/
theorem reapOne_get_ne (stats : String → Option (Int × Int)) (now : Int)
    (m : Monitor) (k sid : String) (hne : k ≠ sid) :
    mapGet ((reapOne stats now m k)).activeAgents sid =
      mapGet m.activeAgents sid := by
  unfold reapOne
  cases hm : mapGet m.activeAgents k with
  | none => rfl
  | some session =>
    dsimp only
    by_cases hs : (session.state != AGENT_STATE.RUNNING) = true
    · rw [if_pos hs]
    · rw [if_neg hs]
      by_cases ht : now - session.startTime > m.maxRuntime
      · rw [if_pos ht]
        rw [stopAgent_get_ne _ _ _ hne]
        exact mapGet_mapSet_ne _ _ _ _ (Ne.symm hne)
      · rw [if_neg ht]
        by_cases hp : session.hasProcess = true
        · rw [if_pos hp]
          cases hst : stats k with
          | none => rfl
          | some st =>
            cases st
            exact mapGet_mapSet_ne _ _ _ _ (Ne.symm hne)
        · rw [if_neg hp]

/-- A reaper step on a RUNNING session whose runtime strictly exceeds
`maxRuntime` leaves the session STOPPED (TIMEOUT is assigned and then
immediately overwritten by the stop request). -/
theorem reapOne_timeout (stats : String → Option (Int × Int)) (now : Int)
    (m : Monitor) (sid : String) (session : Session)
    (hget : mapGet m.activeAgents sid = some session)
    (hrun : session.state = AGENT_STATE.RUNNING)
    (hto : now - session.startTime > m.maxRuntime) :
    mapGet (reapOne stats now m sid).activeAgents sid =
      some { session with state := AGENT_STATE.STOPPED } := by
  unfold reapOne
  rw [hget]
  dsimp only
  rw [hrun]
  rw [if_neg (by simp)]
  rw [if_pos hto]
  unfold stopAgent
  dsimp only
  rw [mapGet_mapSet_self]
  dsimp only
  rw [mapGet_mapSet_self]

/-- A reaper step on a session already STOPPED is a no-op. -/
theorem reapOne_stopped (stats : String → Option (Int × Int)) (now : Int)
    (m : Monitor) (sid : String) (session : Session)
    (hget : mapGet m.activeAgents sid = some session)
    (hstop : session.state = AGENT_STATE.STOPPED) :
    reapOne stats now m sid = m := by
  unfold reapOne
  rw [hget]
  dsimp only
  rw [hstop]
  rw [if_pos (by decide)]

/-- The whole reaper pass preserves a STOPPED session's binding. -/
theorem foldl_reap_preserves_stopped (stats : String → Option (Int × Int))
    (now : Int) (ks : List String) (m : Monitor) (sid : String)
    (session : Session)
    (hget : mapGet m.activeAgents sid = some session)
    (hstop : session.state = AGENT_STATE.STOPPED) :
    mapGet ((ks.foldl (reapOne stats now) m)).activeAgents sid =
      some session := by
  induction ks generalizing m with
  | nil => exact hget
  | cons k rest ih =>
    rw [List.foldl_cons]
    by_cases hk : k = sid
    · subst hk
      rw [reapOne_stopped stats now m k session hget hstop]
      exact ih m hget
    · refine ih (reapOne stats now m k) ?_
      rw [reapOne_get_ne stats now m k sid hk]
      exact hget

/-- The reaper pass over a key list containing a RUNNING, overdue
session leaves that session STOPPED. -/
theorem foldl_reap_timeout (stats : String → Option (Int × Int)) (now : Int)
    (ks : List String) (m : Monitor) (sid : String) (session : Session)
    (hget : mapGet m.activeAgents sid = some session)
    (hrun : session.state = AGENT_STATE.RUNNING)
    (hto : now - session.startTime > m.maxRuntime)
    (hmem : sid ∈ ks) :
    mapGet ((ks.foldl (reapOne stats now) m)).activeAgents sid =
      some { session with state := AGENT_STATE.STOPPED } := by
  induction ks generalizing m with
  | nil => cases hmem
  | cons k rest ih =>
    rw [List.foldl_cons]
    by_cases hk : k = sid
    · subst hk
      exact foldl_reap_preserves_stopped stats now rest _ k _
        (reapOne_timeout stats now m k session hget hrun hto) rfl
    · have hmem' : sid ∈ rest := by
        rcases List.mem_cons.mp hmem with h | h
        · exact absurd h.symm hk
        · exact h
      refine ih (reapOne stats now m k) ?_ ?_ hmem'
      · rw [reapOne_get_ne stats now m k sid hk]
        exact hget
      · rw [reapOne_maxRuntime]
        exact hto

/-- A cleanup step for one session does not move any other key's
binding. -/
theorem cleanupOne_get_ne (now : Int) (m : Monitor) (k sid : String)
    (hne : k ≠ sid) :
    mapGet ((cleanupOne now m k)).activeAgents sid =
      mapGet m.activeAgents sid := by
  unfold cleanupOne
  cases hm : mapGet m.activeAgents k with
  | none => rfl
  | some session =>
    dsimp only
    by_cases hterm : terminalStates.contains session.state = true
    · rw [if_pos hterm]
      cases he : session.endTime with
      | none => rfl
      | some e =>
        dsimp only
        by_cases hold : now - e > 300000
        · rw [if_pos hold]
          exact mapGet_mapDelete_ne _ _ _ (Ne.symm hne)
        · rw [if_neg hold]
    · rw [if_neg hterm]

/-- A cleanup step keeps a session whose end time was never recorded. -/
theorem cleanupOne_keep (now : Int) (m : Monitor) (sid : String)
    (session : Session)
    (hget : mapGet m.activeAgents sid = some session)
    (hend : session.endTime = none) :
    cleanupOne now m sid = m := by
  unfold cleanupOne
  rw [hget]
  dsimp only
  rw [hend]
  split <;> rfl

/-- The cleanup pass preserves the binding of any session whose end time
was never recorded. -/
theorem foldl_cleanup_preserves (now : Int) (ks : List String) (m : Monitor)
    (sid : String) (session : Session)
    (hget : mapGet m.activeAgents sid = some session)
    (hend : session.endTime = none) :
    mapGet ((ks.foldl (cleanupOne now) m)).activeAgents sid =
      some session := by
  induction ks generalizing m with
  | nil => exact hget
  | cons k rest ih =>
    rw [List.foldl_cons]
    by_cases hk : k = sid
    · subst hk
      rw [cleanupOne_keep now m k session hget hend]
      exact ih m hget
    · refine ih (cleanupOne now m k) ?_
      rw [cleanupOne_get_ne now m k sid hk]
      exact hget

/-- A reaper step never adds or removes a registry key. -/
theorem reapOne_keys (stats : String → Option (Int × Int)) (now : Int)
    (m : Monitor) (k : String) :
    (reapOne stats now m k).activeAgents.map Prod.fst =
      m.activeAgents.map Prod.fst := by
  unfold reapOne
  cases hm : mapGet m.activeAgents k with
  | none => rfl
  | some session =>
    have hany := any_key_of_mapGet_some _ _ _ hm
    dsimp only
    by_cases hs : (session.state != AGENT_STATE.RUNNING) = true
    · rw [if_pos hs]
    · rw [if_neg hs]
      by_cases ht : now - session.startTime > m.maxRuntime
      · rw [if_pos ht]
        unfold stopAgent
        dsimp only
        rw [mapGet_mapSet_self]
        dsimp only
        rw [keys_mapSet_of_any, keys_mapSet_of_any]
        · exact hany
        · exact any_key_of_mapGet_some _ _ _ (mapGet_mapSet_self _ _ _)
      · rw [if_neg ht]
        by_cases hp : session.hasProcess = true
        · rw [if_pos hp]
          cases hst : stats k with
          | none => rfl
          | some st =>
            cases st
            exact keys_mapSet_of_any _ _ _ hany
        · rw [if_neg hp]

/-- The whole reaper pass never adds or removes a registry key. -/
theorem foldl_reap_keys (stats : String → Option (Int × Int)) (now : Int)
    (ks : List String) (m : Monitor) :
    ((ks.foldl (reapOne stats now) m)).activeAgents.map Prod.fst =
      m.activeAgents.map Prod.fst := by
  induction ks generalizing m with
  | nil => rfl
  | cons k rest ih =>
    rw [List.foldl_cons, ih, reapOne_keys]

/-- A cleanup step only ever deletes keys. -/
theorem cleanupOne_keys_subset (now : Int) (m : Monitor) (k x : String)
    (hx : x ∈ (cleanupOne now m k).activeAgents.map Prod.fst) :
    x ∈ m.activeAgents.map Prod.fst := by
  revert hx
  unfold cleanupOne
  cases hm : mapGet m.activeAgents k with
  | none => exact id
  | some session =>
    dsimp only
    by_cases hterm : terminalStates.contains session.state = true
    · rw [if_pos hterm]
      cases he : session.endTime with
      | none => exact id
      | some e =>
        dsimp only
        by_cases hold : now - e > 300000
        · rw [if_pos hold]
          intro hx
          rcases List.mem_map.mp hx with ⟨p, hp, hfst⟩
          exact hfst ▸ List.mem_map.mpr
            ⟨p, List.mem_of_mem_filter hp, rfl⟩
        · rw [if_neg hold]
          exact id
    · rw [if_neg hterm]
      exact id

/-- The cleanup pass only ever deletes keys. -/
theorem foldl_cleanup_keys_subset (now : Int) (ks : List String)
    (m : Monitor) (x : String)
    (hx : x ∈ ((ks.foldl (cleanupOne now) m)).activeAgents.map Prod.fst) :
    x ∈ m.activeAgents.map Prod.fst := by
  induction ks generalizing m with
  | nil => exact hx
  | cons k rest ih =>
    rw [List.foldl_cons] at hx
    exact cleanupOne_keys_subset now m k x (ih (cleanupOne now m k) hx)

/-- C2, amended: at a reaper tick, a RUNNING session whose wall-clock
runtime strictly exceeds `maxRuntime` is set to TIMEOUT and a stop
request is issued for it, but the stop request immediately overwrites
the state, so after the tick the session's state is STOPPED (TIMEOUT
does not persist); the tick itself spawns no new session (no new
registry key appears).  Whether the session is later retried is decided
by the exit handler when the killed process exits, which does not
consult the TIMEOUT/STOPPED state. -/
theorem reaper_tick_stops_overdue_session
    (stats : String → Option (Int × Int)) (m : Monitor) (sid : String)
    (session : Session) (now : Int)
    (hget : mapGet m.activeAgents sid = some session)
    (hrun : session.state = AGENT_STATE.RUNNING)
    (hto : now - session.startTime > m.maxRuntime)
    (hend : session.endTime = none) :
    (mapGet (monitorAgents stats m now).activeAgents sid).map
        Session.state = some AGENT_STATE.STOPPED ∧
    ∀ k ∈ (monitorAgents stats m now).activeAgents.map Prod.fst,
      k ∈ m.activeAgents.map Prod.fst := by
  have hmem : sid ∈ m.activeAgents.map Prod.fst :=
    memKeys_of_mapGet_some _ _ _ hget
  unfold monitorAgents
  constructor
  · have h1 := foldl_reap_timeout stats now (m.activeAgents.map Prod.fst) m
      sid session hget hrun hto hmem
    have h2 := foldl_cleanup_preserves now
      (((m.activeAgents.map Prod.fst).foldl (reapOne stats now)
        m).activeAgents.map Prod.fst) _ sid _ h1 hend
    rw [h2]
    rfl
  · intro k hk
    have h3 := foldl_cleanup_keys_subset now _ _ k hk
    rw [foldl_reap_keys] at h3
    exact h3

/-- C2 witness: the amended statement instantiated on the example
monitor, whose session "s1" started at 0 and is examined at time 2000
with maxRuntime 1000. -/
theorem reaper_tick_stops_overdue_session_witness :
    (mapGet (monitorAgents noStats exMonitor 2000).activeAgents "s1").map
        Session.state = some AGENT_STATE.STOPPED ∧
    ∀ k ∈ (monitorAgents noStats exMonitor 2000).activeAgents.map Prod.fst,
      k ∈ exMonitor.activeAgents.map Prod.fst :=
  reaper_tick_stops_overdue_session noStats exMonitor "s1" exSession 2000
    rfl rfl (by decide) rfl

/-- C2 counterexample: the claim says a timed-out session's state is
TIMEOUT and remains TIMEOUT; on the code, after the very tick that
detects the timeout the session's state is STOPPED (the stop request
inside the tick overwrites TIMEOUT), and a subsequent exit of the killed
process (exit code null, not 0) retries the session — a new session
"s2" is spawned for it. -/
theorem timeout_overwritten_and_retried :
    (mapGet (monitorAgents noStats exMonitor 2000).activeAgents "s1").map
        Session.state = some AGENT_STATE.STOPPED ∧
    AGENT_STATE.STOPPED ≠ AGENT_STATE.TIMEOUT ∧
    (mapGet (handleAgentExit (monitorAgents noStats exMonitor 2000) "s1"
        none 2500 "s2" true).activeAgents "s2").map
        (fun s => (s.sessionId, s.retryCount)) = some ("s2", 1) := by
  refine ⟨rfl, by decide, rfl⟩

/-- C10 witness: a registry holding exactly one STOPPED session with
ceiling 1 rejects a fresh admission with the ceiling reason. -/
theorem ceiling_counts_terminal_sessions_witness :
    (validateAgentExecution exMonitorSaturated exCfg exParams).valid = false ∧
    (validateAgentExecution exMonitorSaturated exCfg exParams).reason =
      "Maximum concurrent agents limit (" ++
        toString exMonitorSaturated.manifest.maxConcurrentAgents ++
        ") reached" ∧
    ∀ p ∈ exMonitorSaturated.activeAgents,
      p.2.state ≠ AGENT_STATE.RUNNING :=
  ceiling_counts_terminal_sessions exMonitorSaturated exCfg exParams
    (by decide) (by decide) (by decide)

end McpSupervisor
